import Mathlib

/-!
Shallow embedding of the Pakpay double-entry ledger service
(`services/ledgerService.js`) and of the KYC-limits / transaction-monitoring
service (`services/kycLimitsService.js`).

Monetary amounts are modelled as integers (`Int`, exact PKR): the JavaScript
code manipulates `parseFloat`-converted decimals, and every amount the claims
exercise is integral; the daily report's `0.01` balance tolerance is kept as
the equivalent scaled integer comparison `100·|debits − credits| < 1`.
The database is modelled as an explicit `LedgerState`; `knex.transaction`
rollback semantics are modelled by returning the pre-transaction state on the
error paths.  `generateTRN` is time-and-randomness dependent, so the generated
reference is passed as an explicit argument.
-/

deriving instance DecidableEq for Except

namespace Pakpay

/-- Balance row of the `accounts` table. `status` is a free string in the
database; the code compares it against the literal `"active"`. -/
structure Account where
  id : Nat
  userId : Nat
  balance : Int
  status : String
deriving DecidableEq

/-- Row of the immutable `ledger_entries` table (the fields the ledger logic
reads and writes; currency is fixed to PKR and metadata is free-form). -/
structure LedgerEntry where
  transactionRef : String
  accountId : Nat
  entryType : String
  amount : Int
  balanceAfter : Int
deriving DecidableEq

/-- Row of the `transactions` table (reference, type, amount, status). -/
structure TransactionRec where
  transactionRef : String
  type : String
  amount : Int
  status : String
deriving DecidableEq

/-- The persistent store the ledger service mutates: `accounts`,
`ledger_entries` and `transactions` tables, plus the next serial account id. -/
structure LedgerState where
  accounts : List Account
  entries : List LedgerEntry
  transactions : List TransactionRec
  nextAccountId : Nat
deriving DecidableEq

/-- `LedgerService.getOrCreateAccount`: find the caller's account, creating it
with a zero balance and `active` status when absent.  Returns the account
together with the (possibly extended) store. -/
def getOrCreateAccount (s : LedgerState) (userId : Nat) : Account × LedgerState :=
  match s.accounts.find? (fun a => a.userId == userId) with
  | some a => (a, s)
  | none =>
      let a : Account := ⟨s.nextAccountId, userId, 0, "active"⟩
      (a, { s with accounts := s.accounts ++ [a], nextAccountId := s.nextAccountId + 1 })

/-- The `UPDATE accounts SET balance = b WHERE id = accountId` write. -/
def updateBalance (accts : List Account) (accountId : Nat) (b : Int) : List Account :=
  accts.map (fun a => if a.id == accountId then { a with balance := b } else a)

/-- Errors thrown inside `recordTransfer`'s transaction body.  The code throws
plain `Error`s with these three messages; there is no amount-validation error. -/
inductive TransferError where
  | insufficientBalance
  | sourceNotActive
  | destNotActive
deriving DecidableEq

/-- Value returned by a successful `recordTransfer`. -/
structure TransferResult where
  transactionRef : String
  fromNewBalance : Int
  toNewBalance : Int
deriving DecidableEq

/-- The pair of accounts `recordTransfer` operates on, in the order the code
fetches (and then locks) them: sender first, receiver second. -/
def transferAccounts (s : LedgerState) (fromUserId toUserId : Nat) : Account × Account :=
  let p1 := getOrCreateAccount s fromUserId
  let p2 := getOrCreateAccount p1.2 toUserId
  (p1.1, p2.1)

/-- `LedgerService.recordTransfer`.  Accounts are fetched (and created if
absent) with plain `knex`, outside the transaction; the body then locks the two
rows (sender first), validates balance then both statuses, and on success
inserts the transaction record (created `pending`, finalized `completed` by its
own id before commit — collapsed here because the update targets the row just
inserted), the two ledger entries, and both balance updates.  A throw rolls the
whole `knex.transaction` back, so the error paths return the pre-body state. -/
def recordTransfer (s : LedgerState) (fromUserId toUserId : Nat) (amount : Int)
    (transactionRef : String) : LedgerState × Except TransferError TransferResult :=
  let p1 := getOrCreateAccount s fromUserId
  let fromAccount := p1.1
  let p2 := getOrCreateAccount p1.2 toUserId
  let toAccount := p2.1
  let s2 := p2.2
  if fromAccount.balance < amount then (s2, .error .insufficientBalance)
  else if fromAccount.status ≠ "active" then (s2, .error .sourceNotActive)
  else if toAccount.status ≠ "active" then (s2, .error .destNotActive)
  else
    let fromNewBalance := fromAccount.balance - amount
    let toNewBalance := toAccount.balance + amount
    let debitEntry : LedgerEntry :=
      ⟨transactionRef, fromAccount.id, "debit", amount, fromNewBalance⟩
    let creditEntry : LedgerEntry :=
      ⟨transactionRef, toAccount.id, "credit", amount, toNewBalance⟩
    let s3 : LedgerState :=
      { s2 with
        transactions := s2.transactions ++ [⟨transactionRef, "transfer", amount, "completed"⟩],
        entries := s2.entries ++ [debitEntry, creditEntry],
        accounts := updateBalance (updateBalance s2.accounts fromAccount.id fromNewBalance)
          toAccount.id toNewBalance }
    (s3, .ok ⟨transactionRef, fromNewBalance, toNewBalance⟩)

/-- `LedgerService.deposit`: single-sided credit.  The code performs no
validation of the amount at all; it locks the account, computes
`balance + amount`, inserts a `completed` deposit transaction, one credit
ledger entry, and updates the balance. -/
def deposit (s : LedgerState) (userId : Nat) (amount : Int) (transactionRef : String) :
    LedgerState × TransferResult :=
  let p := getOrCreateAccount s userId
  let account := p.1
  let s1 := p.2
  let newBalance := account.balance + amount
  let s2 : LedgerState :=
    { s1 with
      transactions := s1.transactions ++ [⟨transactionRef, "deposit", amount, "completed"⟩],
      entries := s1.entries ++
        [⟨transactionRef, account.id, "credit", amount, newBalance⟩],
      accounts := updateBalance s1.accounts account.id newBalance }
  (s2, ⟨transactionRef, newBalance, newBalance⟩)

/-- Sum of the `amount` column over a list of ledger entries. -/
def sumAmounts (es : List LedgerEntry) : Int :=
  es.foldl (fun acc e => acc + e.amount) 0

/-- All ledger entries carrying a given transaction reference. -/
def entriesWithRef (s : LedgerState) (ref : String) : List LedgerEntry :=
  s.entries.filter (fun e => e.transactionRef == ref)

/-- Sum of debit amounts recorded under a transaction reference. -/
def debitSum (s : LedgerState) (ref : String) : Int :=
  sumAmounts ((entriesWithRef s ref).filter (fun e => e.entryType == "debit"))

/-- Sum of credit amounts recorded under a transaction reference. -/
def creditSum (s : LedgerState) (ref : String) : Int :=
  sumAmounts ((entriesWithRef s ref).filter (fun e => e.entryType == "credit"))

/-- The sequence of account ids on which `recordTransfer` issues its
`SELECT ... FOR UPDATE` row locks, in program order: the sender's account row
is locked first, then the receiver's. -/
def lockAcquisitionOrder (s : LedgerState) (fromUserId toUserId : Nat) : List Nat :=
  [(transferAccounts s fromUserId toUserId).1.id,
   (transferAccounts s fromUserId toUserId).2.id]

/-- A user already owns an account row in the store. -/
def userHasAccount (s : LedgerState) (userId : Nat) : Prop :=
  ∃ a ∈ s.accounts, a.userId = userId

instance (s : LedgerState) (userId : Nat) : Decidable (userHasAccount s userId) := by
  unfold userHasAccount; infer_instance

/-- A demonstration store: two active accounts, user 10 holding 100 PKR on
account 1 and user 20 holding 50 PKR on account 2. -/
def demoState : LedgerState :=
  { accounts := [⟨1, 10, 100, "active"⟩, ⟨2, 20, 50, "active"⟩],
    entries := [], transactions := [], nextAccountId := 3 }

/-- A monitoring alert as built by the rule evaluators in
`TransactionMonitoringService`: a `type` tag and a `severity` level, both plain
strings in the code. -/
structure Alert where
  type : String
  severity : String
deriving DecidableEq

/-- `TransactionMonitoringService.shouldBlockTransaction`: block when some
alert is `CRITICAL` and its type is `SANCTIONS_HIT`, `STRUCTURING` or
`DECEASED`. -/
def shouldBlockTransaction (alerts : List Alert) : Bool :=
  alerts.any (fun alert =>
    alert.severity == "CRITICAL" &&
      (["SANCTIONS_HIT", "STRUCTURING", "DECEASED"].contains alert.type))

/-- A rule evaluator throwing (e.g. an unreachable external lookup). -/
inductive MonitoringError where
  | evaluatorFailure
deriving DecidableEq

/-- Result of `monitorTransaction`: the verdict, the alert list, and whether
the catch branch ran `logMonitoringError` (the code also sets `error: true` on
that path). -/
structure MonitorResult where
  blocked : Bool
  alerts : List Alert
  errorLogged : Bool
deriving DecidableEq

/-- The alert-collection phase of `monitorTransaction`: the eight rule
evaluators run in sequence inside one `try` block, each appending its alerts;
the first throw escapes to the surrounding catch. -/
def runEvaluators : List (Except MonitoringError (List Alert)) →
    Except MonitoringError (List Alert)
  | [] => .ok []
  | r :: rs =>
      match r with
      | .error e => .error e
      | .ok produced =>
          match runEvaluators rs with
          | .error e => .error e
          | .ok rest => .ok (produced ++ rest)

/-- `TransactionMonitoringService.monitorTransaction`, as a function of the
outcomes of its rule evaluators.  When no evaluator throws: alerts are
processed and the transaction is blocked exactly when the list is non-empty and
`shouldBlockTransaction` holds.  When any evaluator throws, control reaches the
single catch block, which logs the error and returns
`{ blocked: false, alerts: [], error: true }`. -/
def monitorTransaction (results : List (Except MonitoringError (List Alert))) :
    MonitorResult :=
  match runEvaluators results with
  | .ok alerts =>
      if alerts.length > 0 && shouldBlockTransaction alerts then
        ⟨true, alerts, false⟩
      else
        ⟨false, alerts, false⟩
  | .error _ => ⟨false, [], true⟩

/-- `rules.largeTransaction.personal` (5 lakh PKR). -/
def largeTransactionPersonal : Int := 500000

/-- `rules.largeTransaction.business` (20 lakh PKR). -/
def largeTransactionBusiness : Int := 2000000

/-- `rules.largeTransaction.ctr_threshold`. -/
def ctrThreshold : Int := 2000000

/-- The large-transaction threshold picked for a risk profile type. -/
def accountTypeThreshold (riskType : String) : Int :=
  if riskType == "business" then largeTransactionBusiness else largeTransactionPersonal

/-- `TransactionMonitoringService.checkTransactionAmount`: first branch fires a
`CTR_REQUIRED`/`HIGH` alert and generates a CTR artifact when the amount
reaches the CTR threshold; otherwise a `LARGE_TRANSACTION`/`MEDIUM` alert when
the amount reaches the profile threshold; otherwise no alert.  The second
component records whether `generateCTR` was invoked. -/
def checkTransactionAmount (riskType : String) (amount : Int) : Option Alert × Bool :=
  if ctrThreshold ≤ amount then (some ⟨"CTR_REQUIRED", "HIGH"⟩, true)
  else if accountTypeThreshold riskType ≤ amount then
    (some ⟨"LARGE_TRANSACTION", "MEDIUM"⟩, false)
  else (none, false)

/-- Calendar timestamp as the JavaScript `Date` accessors expose it:
`getFullYear`, `getMonth` (0-11) and `getDate` (1-31). -/
structure SimpleDate where
  year : Nat
  month : Nat
  day : Nat
deriving DecidableEq

/-- Strict calendar order on dates (later year, or later month in the same
year, or later day in the same month). -/
def calendarLt (a b : SimpleDate) : Bool :=
  a.year < b.year ||
    (a.year == b.year && (a.month < b.month || (a.month == b.month && a.day < b.day)))

/-- A `user_limits` row joined with the user's `kyc_level`. -/
structure UserLimits where
  kycLevel : Nat
  dailyLimit : Int
  monthlyLimit : Int
  perTransactionLimit : Int
  dailySpent : Int
  monthlySpent : Int
  dailyResetAt : SimpleDate
  monthlyResetAt : SimpleDate
deriving DecidableEq

/-- Outcomes of `KYCLimitsService.checkTransactionLimits`, one per early
return in the code. -/
inductive LimitDecision where
  | kycRequired
  | perTransactionExceeded
  | dailyLimitExceeded
  | monthlyLimitExceeded
  | allowed
deriving DecidableEq

/-- `KYCLimitsService.checkTransactionLimits` at wall-clock time `now`.  The
daily counter is reset when `now.getDate() !== dailyReset.getDate()` — a
day-of-month comparison only; the monthly counter when the month or year
differs.  Then, in order: KYC level 0 is denied outright, then the
per-transaction, daily (`spent + amount > limit`) and monthly ceilings.
Returns the decision together with the (possibly reset) limits row. -/
def checkTransactionLimits (now : SimpleDate) (ul0 : UserLimits) (amount : Int) :
    LimitDecision × UserLimits :=
  let ul1 :=
    if now.day ≠ ul0.dailyResetAt.day then
      { ul0 with dailySpent := 0, dailyResetAt := now }
    else ul0
  let ul2 :=
    if now.month ≠ ul1.monthlyResetAt.month ∨ now.year ≠ ul1.monthlyResetAt.year then
      { ul1 with monthlySpent := 0, monthlyResetAt := now }
    else ul1
  if ul2.kycLevel = 0 then (.kycRequired, ul2)
  else if ul2.perTransactionLimit < amount then (.perTransactionExceeded, ul2)
  else if ul2.dailyLimit < ul2.dailySpent + amount then (.dailyLimitExceeded, ul2)
  else if ul2.monthlyLimit < ul2.monthlySpent + amount then (.monthlyLimitExceeded, ul2)
  else (.allowed, ul2)

/-- The report object `LedgerService.generateDailyReport` returns. -/
structure DailyReport where
  transactionCount : Nat
  totalDebits : Int
  totalCredits : Int
  totalEntries : Nat
  isBalanced : Bool
deriving DecidableEq

/-- `LedgerService.generateDailyReport` on the day's rows: counts the day's
`completed` transactions, sums debit and credit entry amounts, and computes
`isBalanced` as `|total_debits − total_credits| < 0.01` (scaled to integers as
`100·|Δ| < 1`).  The function always returns a report object; no branch throws
or halts on a mismatch. -/
def generateDailyReport (dayTransactions : List TransactionRec)
    (dayEntries : List LedgerEntry) : DailyReport :=
  let totalDebits := sumAmounts (dayEntries.filter (fun e => e.entryType == "debit"))
  let totalCredits := sumAmounts (dayEntries.filter (fun e => e.entryType == "credit"))
  { transactionCount := (dayTransactions.filter (fun t => t.status == "completed")).length,
    totalDebits := totalDebits,
    totalCredits := totalCredits,
    totalEntries := dayEntries.length,
    isBalanced := decide (100 * (totalDebits - totalCredits).natAbs < 1) }

lemma getOrCreateAccount_entries (s : LedgerState) (u : Nat) :
    (getOrCreateAccount s u).2.entries = s.entries := by
  unfold getOrCreateAccount
  cases s.accounts.find? (fun a => a.userId == u) <;> rfl

lemma getOrCreateAccount_transactions (s : LedgerState) (u : Nat) :
    (getOrCreateAccount s u).2.transactions = s.transactions := by
  unfold getOrCreateAccount
  cases s.accounts.find? (fun a => a.userId == u) <;> rfl

lemma getOrCreateAccount_accounts (s : LedgerState) (u : Nat) :
    ∃ rest, (getOrCreateAccount s u).2.accounts = s.accounts ++ rest ∧
      ∀ a ∈ rest, a.balance = 0 := by
  unfold getOrCreateAccount
  cases s.accounts.find? (fun a => a.userId == u) with
  | none => exact ⟨[⟨s.nextAccountId, u, 0, "active"⟩], rfl, by simp⟩
  | some a => exact ⟨[], by simp, by simp⟩

lemma getOrCreateAccount_balance_or_mem (s : LedgerState) (u : Nat) :
    (getOrCreateAccount s u).1.balance = 0 ∨ (getOrCreateAccount s u).1 ∈ s.accounts := by
  unfold getOrCreateAccount
  cases h : s.accounts.find? (fun a => a.userId == u) with
  | none => exact Or.inl rfl
  | some a => exact Or.inr (List.mem_of_find?_eq_some h)

lemma mem_updateBalance {a : Account} {accts : List Account} {i : Nat} {b : Int}
    (h : a ∈ updateBalance accts i b) : a.balance = b ∨ a ∈ accts := by
  unfold updateBalance at h
  obtain ⟨a0, _, ha0⟩ := List.mem_map.mp h
  by_cases hid : (a0.id == i) = true
  · simp [hid] at ha0
    exact Or.inl (ha0 ▸ rfl)
  · simp [hid] at ha0
    exact ha0 ▸ Or.inr (by assumption)

/-- Claim C1: a successful `recordTransfer(fromUserId, toUserId, amount, ·)`
writes exactly two ledger entries carrying the generated transaction
reference — a debit against the sender's account and a credit against the
receiver's, both of the transferred amount — and the debit and credit sums for
that reference are both equal to the amount. -/
theorem recordTransfer_double_entry (s : LedgerState) (fromUserId toUserId : Nat)
    (amount : Int) (ref : String) (res : TransferResult)
    (hfresh : ∀ e ∈ s.entries, e.transactionRef ≠ ref)
    (hok : (recordTransfer s fromUserId toUserId amount ref).2 = .ok res) :
    entriesWithRef (recordTransfer s fromUserId toUserId amount ref).1 ref =
      [⟨ref, (transferAccounts s fromUserId toUserId).1.id, "debit", amount,
          (transferAccounts s fromUserId toUserId).1.balance - amount⟩,
       ⟨ref, (transferAccounts s fromUserId toUserId).2.id, "credit", amount,
          (transferAccounts s fromUserId toUserId).2.balance + amount⟩] ∧
    debitSum (recordTransfer s fromUserId toUserId amount ref).1 ref = amount ∧
    creditSum (recordTransfer s fromUserId toUserId amount ref).1 ref = amount := by
  have hbase : (getOrCreateAccount (getOrCreateAccount s fromUserId).2 toUserId).2.entries
      = s.entries := by
    rw [getOrCreateAccount_entries, getOrCreateAccount_entries]
  have hnil : s.entries.filter (fun e => e.transactionRef == ref) = [] :=
    List.filter_eq_nil_iff.mpr (fun e he => by simpa using hfresh e he)
  have h1 : ¬ (getOrCreateAccount s fromUserId).1.balance < amount := by
    intro h1; simp [recordTransfer, h1] at hok
  have h2 : (getOrCreateAccount s fromUserId).1.status = "active" := by
    by_contra h2; simp [recordTransfer, h1, h2] at hok
  have h3 : (getOrCreateAccount (getOrCreateAccount s fromUserId).2 toUserId).1.status
      = "active" := by
    by_contra h3; simp [recordTransfer, h1, h2, h3] at hok
  refine ⟨?_, ?_, ?_⟩ <;>
    simp [recordTransfer, transferAccounts, entriesWithRef, debitSum, creditSum,
      sumAmounts, h1, h2, h3, hbase, List.filter_append, hnil]

/-- Witness for C1 at a concrete transfer of 30 PKR between the two demo
accounts. -/
theorem recordTransfer_double_entry_witness :
    (∀ e ∈ demoState.entries, e.transactionRef ≠ "PKREF1") ∧
    debitSum (recordTransfer demoState 10 20 30 "PKREF1").1 "PKREF1" = 30 ∧
    creditSum (recordTransfer demoState 10 20 30 "PKREF1").1 "PKREF1" = 30 :=
  ⟨by decide,
   (recordTransfer_double_entry demoState 10 20 30 "PKREF1" ⟨"PKREF1", 70, 80⟩
      (by decide) (by decide)).2⟩

/-- Claim C2: atomicity of `recordTransfer` — on any failure (insufficient
balance, inactive account) no ledger entry is written, no transaction record is
written, and no existing account balance changes; the only residue is account
rows auto-created (outside the `knex` transaction) with a zero balance. -/
theorem recordTransfer_atomic_on_failure (s : LedgerState) (fromUserId toUserId : Nat)
    (amount : Int) (ref : String) (err : TransferError)
    (herr : (recordTransfer s fromUserId toUserId amount ref).2 = .error err) :
    (recordTransfer s fromUserId toUserId amount ref).1.entries = s.entries ∧
    (recordTransfer s fromUserId toUserId amount ref).1.transactions = s.transactions ∧
    ∃ rest, (recordTransfer s fromUserId toUserId amount ref).1.accounts
        = s.accounts ++ rest ∧ ∀ a ∈ rest, a.balance = 0 := by
  have hstate : (recordTransfer s fromUserId toUserId amount ref).1 =
      (getOrCreateAccount (getOrCreateAccount s fromUserId).2 toUserId).2 := by
    by_cases h1 : (getOrCreateAccount s fromUserId).1.balance < amount
    · simp [recordTransfer, h1]
    · by_cases h2 : (getOrCreateAccount s fromUserId).1.status = "active"
      · by_cases h3 :
            (getOrCreateAccount (getOrCreateAccount s fromUserId).2 toUserId).1.status
              = "active"
        · exfalso; simp [recordTransfer, h1, h2, h3] at herr
        · simp [recordTransfer, h1, h2, h3]
      · simp [recordTransfer, h1, h2]
  obtain ⟨r1, hr1, hz1⟩ := getOrCreateAccount_accounts s fromUserId
  obtain ⟨r2, hr2, hz2⟩ :=
    getOrCreateAccount_accounts (getOrCreateAccount s fromUserId).2 toUserId
  refine ⟨?_, ?_, r1 ++ r2, ?_, ?_⟩
  · rw [hstate, getOrCreateAccount_entries, getOrCreateAccount_entries]
  · rw [hstate, getOrCreateAccount_transactions, getOrCreateAccount_transactions]
  · rw [hstate, hr2, hr1, List.append_assoc]
  · intro a ha
    rcases List.mem_append.mp ha with h | h
    · exact hz1 a h
    · exact hz2 a h

/-- Witness for C2: a transfer of 500 PKR against a balance of 100 fails with
`insufficientBalance` and leaves the demo store's tables unchanged. -/
theorem recordTransfer_atomic_on_failure_witness :
    (recordTransfer demoState 10 20 500 "PKREF2").2 = .error .insufficientBalance ∧
    (recordTransfer demoState 10 20 500 "PKREF2").1.entries = demoState.entries ∧
    (recordTransfer demoState 10 20 500 "PKREF2").1.transactions = demoState.transactions :=
  ⟨by decide,
   (recordTransfer_atomic_on_failure demoState 10 20 500 "PKREF2" .insufficientBalance
      (by decide)).1,
   (recordTransfer_atomic_on_failure demoState 10 20 500 "PKREF2" .insufficientBalance
      (by decide)).2.1⟩

/-- Counterexample to C4 as stated: the claim quantifies over every input
amount, but `deposit` performs no amount validation — depositing −60 PKR into
the demo account holding 50 PKR drives its committed balance to −10. -/
theorem deposit_negative_amount_breaks_nonneg :
    ∃ a ∈ (deposit demoState 20 (-60) "PKREFD").1.accounts, a.balance < 0 := by decide

/-- Claim C4 (amended): for every non-negative amount, `recordTransfer` and
`deposit` preserve the invariant that all account balances are ≥ 0 — the
debit is guarded by the sufficiency check and the credit only adds. -/
theorem nonneg_balances_preserved (s : LedgerState) (u1 u2 : Nat) (amount : Int)
    (ref : String) (hamt : 0 ≤ amount) (hnn : ∀ a ∈ s.accounts, 0 ≤ a.balance) :
    (∀ a ∈ (recordTransfer s u1 u2 amount ref).1.accounts, 0 ≤ a.balance) ∧
    (∀ a ∈ (deposit s u1 amount ref).1.accounts, 0 ≤ a.balance) := by
  have hnn1 : ∀ a ∈ (getOrCreateAccount s u1).2.accounts, 0 ≤ a.balance := by
    obtain ⟨r, hr, hz⟩ := getOrCreateAccount_accounts s u1
    intro a ha
    rw [hr] at ha
    rcases List.mem_append.mp ha with h | h
    · exact hnn a h
    · exact le_of_eq (hz a h).symm
  have hnn2 : ∀ a ∈ (getOrCreateAccount (getOrCreateAccount s u1).2 u2).2.accounts,
      0 ≤ a.balance := by
    obtain ⟨r, hr, hz⟩ := getOrCreateAccount_accounts (getOrCreateAccount s u1).2 u2
    intro a ha
    rw [hr] at ha
    rcases List.mem_append.mp ha with h | h
    · exact hnn1 a h
    · exact le_of_eq (hz a h).symm
  have hfa : 0 ≤ (getOrCreateAccount s u1).1.balance := by
    rcases getOrCreateAccount_balance_or_mem s u1 with h | h
    · exact le_of_eq h.symm
    · exact hnn _ h
  have hta : 0 ≤ (getOrCreateAccount (getOrCreateAccount s u1).2 u2).1.balance := by
    rcases getOrCreateAccount_balance_or_mem (getOrCreateAccount s u1).2 u2 with h | h
    · exact le_of_eq h.symm
    · exact hnn1 _ h
  constructor
  · by_cases h1 : (getOrCreateAccount s u1).1.balance < amount
    · intro a ha
      simp only [recordTransfer, h1, if_true] at ha
      exact hnn2 a ha
    · by_cases h2 : (getOrCreateAccount s u1).1.status = "active"
      · by_cases h3 :
            (getOrCreateAccount (getOrCreateAccount s u1).2 u2).1.status = "active"
        · intro a ha
          simp only [recordTransfer, h1, h2, h3] at ha
          simp at ha
          rcases mem_updateBalance ha with hb | ha'
          · rw [hb]; exact add_nonneg hta hamt
          · rcases mem_updateBalance ha' with hb | ha''
            · rw [hb]
              have hge : amount ≤ (getOrCreateAccount s u1).1.balance := Int.not_lt.mp h1
              omega
            · exact hnn2 a ha''
        · intro a ha
          simp [recordTransfer, h1, h2, h3] at ha
          exact hnn2 a ha
      · intro a ha
        simp [recordTransfer, h1, h2] at ha
        exact hnn2 a ha
  · intro a ha
    simp only [deposit] at ha
    rcases mem_updateBalance ha with hb | ha'
    · rw [hb]; exact add_nonneg hfa hamt
    · exact hnn1 a ha'

/-- Witness for the amended C4 on the demo store with a 30 PKR amount. -/
theorem nonneg_balances_preserved_witness :
    (0 : Int) ≤ 30 ∧ (∀ a ∈ demoState.accounts, 0 ≤ a.balance) ∧
    (∀ a ∈ (recordTransfer demoState 10 20 30 "PKREF3").1.accounts, 0 ≤ a.balance) ∧
    (∀ a ∈ (deposit demoState 10 30 "PKREF3").1.accounts, 0 ≤ a.balance) :=
  ⟨by decide, by decide,
   (nonneg_balances_preserved demoState 10 20 30 "PKREF3" (by decide) (by decide)).1,
   (nonneg_balances_preserved demoState 10 20 30 "PKREF3" (by decide) (by decide)).2⟩

/-- Counterexample to C5 as stated: `recordTransfer` contains no amount
validation whatsoever, so a call with `amount = 0` — and even a negative
amount, which silently moves money in the reverse direction — succeeds instead
of failing with an `InvalidAmount` error. -/
theorem recordTransfer_accepts_nonpositive_amount :
    (recordTransfer demoState 10 20 0 "PKREF0").2 = .ok ⟨"PKREF0", 100, 50⟩ ∧
    (recordTransfer demoState 10 20 (-40) "PKREF0").2 = .ok ⟨"PKREF0", 140, 10⟩ := by
  decide

/-- Claim C5 (amended): `recordTransfer` never validates the amount; its three
failures are exactly characterized by source balance < amount (checked first),
then source status ≠ active, then destination status ≠ active. -/
theorem recordTransfer_error_conditions (s : LedgerState) (fromUserId toUserId : Nat)
    (amount : Int) (ref : String) :
    ((recordTransfer s fromUserId toUserId amount ref).2 = .error .insufficientBalance ↔
      (transferAccounts s fromUserId toUserId).1.balance < amount) ∧
    ((recordTransfer s fromUserId toUserId amount ref).2 = .error .sourceNotActive ↔
      (¬ (transferAccounts s fromUserId toUserId).1.balance < amount ∧
        (transferAccounts s fromUserId toUserId).1.status ≠ "active")) ∧
    ((recordTransfer s fromUserId toUserId amount ref).2 = .error .destNotActive ↔
      (¬ (transferAccounts s fromUserId toUserId).1.balance < amount ∧
        (transferAccounts s fromUserId toUserId).1.status = "active" ∧
        (transferAccounts s fromUserId toUserId).2.status ≠ "active")) := by
  simp only [recordTransfer, transferAccounts]
  split_ifs with h1 h2 h3 <;> simp_all

/-- Counterexample to C7: the lock order is not a fixed total order by account
identifier — it depends on transfer direction.  Transferring from user 20 to
user 10 locks account 2 before account 1 (descending), the reverse of the
ascending order the opposite direction uses. -/
theorem lockOrder_depends_on_direction :
    lockAcquisitionOrder demoState 20 10 = [2, 1] ∧
    lockAcquisitionOrder demoState 10 20 = [1, 2] ∧
    lockAcquisitionOrder demoState 20 10 ≠ lockAcquisitionOrder demoState 10 20 := by
  decide

/-- Claim C7 (amended): `recordTransfer` always locks the sender's account row
first and the receiver's second, so for any two existing accounts the two
transfer directions acquire the locks in exactly opposite orders — the
deadlock-prone pattern the claim said was avoided. -/
theorem lockOrder_sender_first (s : LedgerState) (u1 u2 : Nat)
    (h1 : userHasAccount s u1) (h2 : userHasAccount s u2) :
    lockAcquisitionOrder s u1 u2 = (lockAcquisitionOrder s u2 u1).reverse := by
  obtain ⟨xa, hxa, hxau⟩ := h1
  obtain ⟨xb, hxb, hxbu⟩ := h2
  cases hfa : s.accounts.find? (fun acc => acc.userId == u1) with
  | none => exact absurd (List.find?_eq_none.mp hfa xa hxa) (by simp [hxau])
  | some fa =>
      cases hfb : s.accounts.find? (fun acc => acc.userId == u2) with
      | none => exact absurd (List.find?_eq_none.mp hfb xb hxb) (by simp [hxbu])
      | some fb =>
          simp [lockAcquisitionOrder, transferAccounts, getOrCreateAccount, hfa, hfb]

/-- Witness for the amended C7 on the two demo accounts. -/
theorem lockOrder_sender_first_witness :
    userHasAccount demoState 10 ∧ userHasAccount demoState 20 ∧
    lockAcquisitionOrder demoState 10 20 = (lockAcquisitionOrder demoState 20 10).reverse :=
  ⟨by decide, by decide,
   lockOrder_sender_first demoState 10 20 (by decide) (by decide)⟩

lemma shouldBlock_iff (alerts : List Alert) :
    shouldBlockTransaction alerts = true ↔
      ∃ a ∈ alerts, a.severity = "CRITICAL" ∧
        (a.type = "SANCTIONS_HIT" ∨ a.type = "STRUCTURING" ∨ a.type = "DECEASED") := by
  simp [shouldBlockTransaction, List.any_eq_true]

/-- Claim C3: `monitorTransaction` blocks a transaction exactly when its alert
set contains at least one `CRITICAL` alert whose type is `SANCTIONS_HIT`,
`STRUCTURING` or `DECEASED`; no other alert type or severity ever causes a
block. -/
theorem monitorTransaction_blocking_policy
    (results : List (Except MonitoringError (List Alert))) :
    (monitorTransaction results).blocked = true ↔
      ∃ a ∈ (monitorTransaction results).alerts,
        a.severity = "CRITICAL" ∧
          (a.type = "SANCTIONS_HIT" ∨ a.type = "STRUCTURING" ∨ a.type = "DECEASED") := by
  unfold monitorTransaction
  cases h : runEvaluators results with
  | error e => simp
  | ok alerts =>
      have hiff := shouldBlock_iff alerts
      cases hsb : shouldBlockTransaction alerts with
      | true =>
          obtain ⟨a, ha, hrest⟩ := hiff.mp hsb
          have hne : alerts ≠ [] := by rintro rfl; exact List.not_mem_nil a ha
          have hlen : 0 < alerts.length := List.length_pos.mpr hne
          simp only [hsb, Bool.and_true, if_pos, hlen, gt_iff_lt, decide_eq_true_eq]
          simp [hlen]
          exact ⟨a, ha, hrest⟩
      | false =>
          have hnot : ¬ ∃ a ∈ alerts, a.severity = "CRITICAL" ∧
              (a.type = "SANCTIONS_HIT" ∨ a.type = "STRUCTURING" ∨ a.type = "DECEASED") :=
            fun hex => by
              have hb := hiff.mpr hex
              rw [hsb] at hb
              exact Bool.false_ne_true hb
          simp [hsb]
          simpa using hnot

/-- Counterexample to C8: when one rule evaluator throws after another has
already produced an alert, the single surrounding catch discards every alert —
the pipeline returns `{ blocked: false, alerts: [] }` rather than keeping the
surviving evaluators' alerts intact. -/
theorem monitorTransaction_error_discards_alerts :
    monitorTransaction [.ok [⟨"LARGE_TRANSACTION", "MEDIUM"⟩], .error .evaluatorFailure] =
      ⟨false, [], true⟩ ∧
    (monitorTransaction
        [.ok [⟨"LARGE_TRANSACTION", "MEDIUM"⟩], .error .evaluatorFailure]).alerts ≠
      [⟨"LARGE_TRANSACTION", "MEDIUM"⟩] := by
  decide

lemma runEvaluators_error_of_mem {results : List (Except MonitoringError (List Alert))}
    (h : ∃ r ∈ results, ∃ e, r = Except.error e) :
    ∃ e, runEvaluators results = .error e := by
  induction results with
  | nil => simp at h
  | cons r rs ih =>
      obtain ⟨r0, hr0, e0, he0⟩ := h
      rcases List.mem_cons.mp hr0 with h0 | h0
      · subst h0; rw [he0]; exact ⟨e0, rfl⟩
      · cases r with
        | error e => exact ⟨e, rfl⟩
        | ok produced =>
            obtain ⟨e, he⟩ := ih ⟨r0, h0, e0, he0⟩
            exact ⟨e, by simp [runEvaluators, he]⟩

/-- Claim C8 (amended): when any rule evaluator throws, the pipeline still
returns and never blocks, and the failure is logged (auditable) — but instead
of treating only that rule as non-matching it discards all alerts: the result
is `{ blocked := false, alerts := [], errorLogged := true }`. -/
theorem monitorTransaction_fail_open
    (results : List (Except MonitoringError (List Alert)))
    (h : ∃ r ∈ results, ∃ e, r = Except.error e) :
    monitorTransaction results = ⟨false, [], true⟩ := by
  obtain ⟨e, he⟩ := runEvaluators_error_of_mem h
  simp [monitorTransaction, he]

/-- Witness for the amended C8 on a concrete evaluator-outcome list. -/
theorem monitorTransaction_fail_open_witness :
    (∃ r ∈ [Except.error MonitoringError.evaluatorFailure,
        Except.ok [Alert.mk "CTR_REQUIRED" "HIGH"]], ∃ e, r = Except.error e) ∧
    monitorTransaction [Except.error MonitoringError.evaluatorFailure,
        Except.ok [Alert.mk "CTR_REQUIRED" "HIGH"]] = ⟨false, [], true⟩ :=
  ⟨⟨.error .evaluatorFailure, by decide, .evaluatorFailure, rfl⟩,
   monitorTransaction_fail_open _
     ⟨.error .evaluatorFailure, by decide, .evaluatorFailure, rfl⟩⟩

/-- A fully verified user at the daily ceiling, whose counters were last reset
on 15 January 2025 (JavaScript months are 0-based: month 0 = January). -/
def janLimits : UserLimits :=
  { kycLevel := 3, dailyLimit := 500000, monthlyLimit := 5000000,
    perTransactionLimit := 200000, dailySpent := 500000, monthlySpent := 0,
    dailyResetAt := ⟨2025, 0, 15⟩, monthlyResetAt := ⟨2025, 0, 15⟩ }

/-- Claim C6, evaluated at the failing input: 15 February 2025 is a strictly
later calendar day than the stored daily reset timestamp 15 January 2025, yet
because the code compares only `getDate()` (day-of-month, 15 = 15) the daily
counter is not reset — the stale `dailySpent = 500000` is used in the ceiling
comparison and a 100 PKR transaction is denied, where the claim requires a
freshly zeroed counter (which would allow it). -/
theorem daily_reset_skipped_on_same_day_of_month :
    calendarLt ⟨2025, 0, 15⟩ ⟨2025, 1, 15⟩ = true ∧
    (checkTransactionLimits ⟨2025, 1, 15⟩ janLimits 100).1 = .dailyLimitExceeded ∧
    ((checkTransactionLimits ⟨2025, 1, 15⟩ janLimits 100).2).dailySpent = 500000 ∧
    ((checkTransactionLimits ⟨2025, 1, 15⟩ janLimits 100).2).dailyResetAt = ⟨2025, 0, 15⟩ := by
  decide

/-- Counterexample to C9: a day whose ledger entries hold a debit of 100 PKR
and no credit is a corrupted book (sums differ by 100), yet
`generateDailyReport` neither halts nor raises — it returns an ordinary report
object that merely carries `isBalanced = false`. -/
theorem generateDailyReport_returns_normally_on_mismatch :
    generateDailyReport [] [⟨"PKREFX", 1, "debit", 100, 0⟩] = ⟨0, 100, 0, 1, false⟩ := by
  decide

/-- Claim C9 (amended): `generateDailyReport` aggregates the day's debit sum,
credit sum and entry count, and surfaces a debit/credit mismatch only as the
`isBalanced = false` flag inside a normally returned report — it is total and
never halts report generation on a mismatch. -/
theorem generateDailyReport_flags_mismatch (dayTransactions : List TransactionRec)
    (dayEntries : List LedgerEntry) :
    (generateDailyReport dayTransactions dayEntries).totalDebits =
      sumAmounts (dayEntries.filter (fun e => e.entryType == "debit")) ∧
    (generateDailyReport dayTransactions dayEntries).totalCredits =
      sumAmounts (dayEntries.filter (fun e => e.entryType == "credit")) ∧
    (generateDailyReport dayTransactions dayEntries).totalEntries = dayEntries.length ∧
    ((generateDailyReport dayTransactions dayEntries).isBalanced = false ↔
      (generateDailyReport dayTransactions dayEntries).totalDebits ≠
        (generateDailyReport dayTransactions dayEntries).totalCredits) := by
  refine ⟨rfl, rfl, rfl, ?_⟩
  simp only [generateDailyReport, decide_eq_false_iff_not]
  omega

/-- Claim C10: the amount check yields at most one alert — a `CTR_REQUIRED`
alert of severity `HIGH` with a CTR artifact exactly when the amount reaches
the CTR threshold, a `LARGE_TRANSACTION` alert of severity `MEDIUM` (no CTR)
exactly when the amount is at or above the profile threshold but strictly
below the CTR threshold, and no alert otherwise. -/
theorem checkTransactionAmount_exclusive (riskType : String) (amount : Int) :
    (((checkTransactionAmount riskType amount).1 = some ⟨"CTR_REQUIRED", "HIGH"⟩ ∧
        (checkTransactionAmount riskType amount).2 = true) ↔
      ctrThreshold ≤ amount) ∧
    (((checkTransactionAmount riskType amount).1 = some ⟨"LARGE_TRANSACTION", "MEDIUM"⟩ ∧
        (checkTransactionAmount riskType amount).2 = false) ↔
      (accountTypeThreshold riskType ≤ amount ∧ amount < ctrThreshold)) ∧
    ((checkTransactionAmount riskType amount).1 = none ↔
      amount < accountTypeThreshold riskType) := by
  have hth : accountTypeThreshold riskType ≤ ctrThreshold := by
    unfold accountTypeThreshold ctrThreshold largeTransactionPersonal largeTransactionBusiness
    split
    · decide
    · decide
  unfold checkTransactionAmount
  split_ifs with hc ht <;> simp_all [Alert.mk.injEq] <;> omega

end Pakpay
